import Mathlib

/-!
Verification of the IITK firewall authenticator (src/authenticator.py).

The Python program keeps a device authenticated against a captive portal:
a connectivity prober (method state_check), a login negotiator (method
login) built on three regular-expression extractions, a keepalive loop,
an interrupt handler, and a driving run loop.  We embed each method as a
pure Lean function; network responses are inputs (lists of outcomes for
repeated requests to one URL, functions from URL to outcome for one-shot
requests), and the two mutable session fields of the Authenticator object
are threaded explicitly as a Session value.
-/

namespace FirewallAuth

/-- The plaintext canary address, constant ONE_ONE_ONE_ONE in the source. -/
def oneOneOneOne : List Char := "http://1.1.1.1/".data

/-- The secure canary address, constant ONE_ONE_ONE_ONE_HTTPS in the source. -/
def oneOneOneOneHttps : List Char := "https://1.1.1.1/".data

/-- An HTTP response as the program consumes it: final status code, final URL
(after redirects, attribute response.url) and body text (response.text). -/
structure Response where
  status : Nat
  url : List Char
  text : List Char
deriving DecidableEq

/-- Outcome of one requests.get / requests.post call: a raised
RequestException, or a response. -/
inductive ReqOutcome where
  | exc : ReqOutcome
  | ok : Response → ReqOutcome
deriving DecidableEq

/-- The two mutable fields of the Authenticator object:
logged_in and logout_url. -/
structure Session where
  logged_in : Bool
  logout_url : List Char
deriving DecidableEq

/-- The state established by Authenticator.__init__:
logged_in = False, logout_url = "". -/
def initSession : Session := ⟨false, []⟩

/-- The invariant claimed by the spec: logout_url is non-empty iff
logged_in is true. -/
def sessionInv (s : Session) : Prop := s.logout_url ≠ [] ↔ s.logged_in = true

instance (s : Session) : Decidable (sessionInv s) := by
  unfold sessionInv; infer_instance

/-- Boolean test that a pattern is a prefix of a list (literal match). -/
def litPre : List Char → List Char → Bool
  | [], _ => true
  | _ :: _, [] => false
  | a :: as, b :: bs => a == b && litPre as bs

/-- Boolean test that a pattern occurs as a contiguous substring. -/
def containsSub (pat : List Char) : List Char → Bool
  | [] => litPre pat []
  | c :: cs => litPre pat (c :: cs) || containsSub pat cs

/-- re.search position scan: try a match at each start position, leftmost
position wins. -/
def scanPos (f : List Char → Option (List Char)) : List Char → Option (List Char)
  | [] => f []
  | c :: cs =>
    match f (c :: cs) with
    | some r => some r
    | none => scanPos f cs

/-- Character class [a-z:0-9.] of the base-URL regular expression. -/
def baseClass (c : Char) : Bool :=
  ('a' ≤ c && c ≤ 'z') || c == ':' || ('0' ≤ c && c ≤ '9') || c == '.'

/-- Character class [a-zA-Z0-9] of the magic-token regular expression. -/
def alnum (c : Char) : Bool :=
  ('a' ≤ c && c ≤ 'z') || ('A' ≤ c && c ≤ 'Z') || ('0' ≤ c && c ≤ '9')

/-- Match of regex https://[a-z:0-9.]*/ anchored at the start of s.  The
class excludes the slash, so the greedy star must stop exactly at the
maximal class run and the next character must be a slash. -/
def matchBaseAt (s : List Char) : Option (List Char) :=
  if litPre "https://".data s then
    let rest := s.drop 8
    let run := rest.takeWhile baseClass
    if (rest.drop run.length).head? = some '/' then
      some ("https://".data ++ run ++ ['/'])
    else none
  else none

/-- re.search of the base-URL regex, source line 312. -/
def searchBase (s : List Char) : Option (List Char) := scanPos matchBaseAt s

/-- The literal part of the magic regex before the capture group. -/
def magicLit : List Char := "name=\"magic\" value=\"".data

/-- Match of regex (name="magic" value=")([a-zA-Z0-9]+)(") anchored at the
start of s, returning capture group 2.  The class excludes the quote, so
the greedy plus must stop at the maximal class run (which must be
non-empty) and the next character must be a quote. -/
def matchMagicAt (s : List Char) : Option (List Char) :=
  if litPre magicLit s then
    let rest := s.drop magicLit.length
    let run := rest.takeWhile alnum
    if run.isEmpty then none
    else if (rest.drop run.length).head? = some '"' then some run
    else none
  else none

/-- re.search of the magic regex, source line 317. -/
def searchMagic (s : List Char) : Option (List Char) := scanPos matchMagicAt s

/-- Greedy (.*)" step: split a line at its last quote, returning the part
before it; fails when the line holds no quote. -/
def lastQuoteSplit (l : List Char) : Option (List Char) :=
  match l.reverse.dropWhile (fun d => !(d == '"')) with
  | [] => none
  | _ :: rest => some rest.reverse

/-- Match of regex window.location="(.*)" anchored at the start of s,
returning capture group 1.  The dot matches any character but a newline;
the greedy group runs to the last quote on the line. -/
def matchRedirectAt (s : List Char) : Option (List Char) :=
  if litPre "window".data s then
    match (s.drop 6).head? with
    | none => none
    | some c =>
      if c == '\n' then none
      else
        let t := s.drop 7
        if litPre "location=\"".data t then
          let tail := t.drop 10
          lastQuoteSplit (tail.takeWhile (fun d => !(d == '\n')))
        else none
  else none

/-- re.search of the script-redirect regex, source lines 342 and 409. -/
def searchRedirect (s : List Char) : Option (List Char) := scanPos matchRedirectAt s

/-- Recursion core of replKA, structural on a fuel bound so that it
reduces inside the kernel; each step consumes at least one character, so
fuel equal to the length of the list is always enough. -/
def replKAGo : Nat → List Char → List Char
  | 0, _ => []
  | _ + 1, [] => []
  | fuel + 1, c :: cs =>
    if litPre "keepalive".data (c :: cs) then "logout".data ++ replKAGo fuel (cs.drop 8)
    else c :: replKAGo fuel cs

/-- Python url.replace with pattern keepalive and replacement logout,
source line 354: every non-overlapping occurrence is replaced, scanning
left to right. -/
def replKA (s : List Char) : List Char := replKAGo s.length s

/-- The retry loop of Authenticator.__state_check, source lines 283-296:
repeat the canary GET over the successive outcomes until one returns with
status 200, then classify by comparing the final URL with the secure
canary address.  none models the loop still retrying after consuming
every supplied outcome. -/
def stateCheckAux : List ReqOutcome → Option (Bool × Response)
  | [] => none
  | .exc :: rest => stateCheckAux rest
  | .ok r :: rest =>
    if r.status = 200 then some (r.url == oneOneOneOneHttps, r)
    else stateCheckAux rest

/-- Authenticator.__state_check with the object state threaded explicitly:
the method body contains no assignment to logged_in or logout_url, so the
session component passes through. -/
def stateCheck (s : Session) (outs : List ReqOutcome) :
    Option (Bool × Response) × Session :=
  (stateCheckAux outs, s)

/-- Result of Authenticator.__login: a call to exit(code) with a logged
message, an unhandled exception escaping the method (the GET at source
line 347 is outside any try block), or the returned (status, response)
pair together with the session state after the call. -/
inductive LoginResult where
  | fatal : Nat → String → LoginResult
  | crash : String → LoginResult
  | failure : Option Response → Session → LoginResult
  | success : Response → Session → LoginResult
deriving DecidableEq

/-- Authenticator.__login, source lines 298-355.  r0 is the captive-portal
response passed in; post gives the outcome of the credential POST as a
function of the scraped base URL and magic token; get gives the outcome
of the redirect-following GET as a function of its URL. -/
def login (s : Session) (r0 : Response)
    (post : List Char → List Char → ReqOutcome)
    (get : List Char → ReqOutcome) : LoginResult :=
  match searchBase r0.url with
  | none => .fatal 1 "Cound not find base URL via regex match. Exiting"
  | some url =>
    match searchMagic r0.text with
    | none => .fatal 1 "Could not find magic value via regex match. Exiting"
    | some magic =>
      match post url magic with
      | .exc => .failure none s
      | .ok pr =>
        if pr.status ≠ 200 then .failure (some pr) s
        else
          match searchRedirect pr.text with
          | none => .fatal 1 "Invalid username/password combination. Exiting"
          | some u =>
            match get u with
            | .exc => .crash "unhandled RequestException at the keepalive fetch"
            | .ok fr =>
              if fr.status ≠ 200 then .failure (some fr) s
              else .success fr ⟨true, replKA u⟩

/-- Authenticator.__keepalive, source lines 357-384, on the successive
outcomes of the GET to the fixed url: a healthy outcome (status 200 and
unchanged URL) sleeps and repeats; an exception or any other outcome sets
logged_in to False and breaks.  logout_url is never assigned.  none
models the loop still alive after consuming every supplied outcome. -/
def keepalive (s : Session) (url : List Char) : List ReqOutcome → Option Session
  | [] => none
  | .exc :: _ => some ⟨false, s.logout_url⟩
  | .ok r :: rest =>
    if r.status = 200 ∧ r.url = url then keepalive s url rest
    else some ⟨false, s.logout_url⟩

/-- Result of Authenticator.__interupt_handler: exit(code=0) (recording
whether the logout-success message was logged), or an exception escaping
the handler. -/
inductive HandlerResult where
  | exit0 : Bool → HandlerResult
  | crash : String → HandlerResult
deriving DecidableEq

/-- Authenticator.__interupt_handler, source lines 245-268.  When
logged_in, the logout GET is issued once; if it raises, the except block
logs, after which line 264 reads the local variable response, which was
never assigned, raising UnboundLocalError out of the handler, so
exit(code=0) at line 268 is never reached. -/
def interruptHandler (s : Session) (get : List Char → ReqOutcome) : HandlerResult :=
  if s.logged_in then
    match get s.logout_url with
    | .exc => .crash "UnboundLocalError reading response after the except block"
    | .ok r => .exit0 (r.status == 200)
  else .exit0 false

/-- Network environment of one iteration of Authenticator.run: the canary
outcomes consumed by state_check, the one-shot GET oracle, the credential
POST oracle, and the outcomes consumed by the keepalive loop. -/
structure IterEnv where
  probe : List ReqOutcome
  get : List Char → ReqOutcome
  post : List Char → List Char → ReqOutcome
  ka : List ReqOutcome

/-- Result of one iteration of the while-True body of Authenticator.run:
an inner loop that never returned, a completed body (the loop continues
with the resulting session), a call to exit, or an uncaught exception. -/
inductive IterResult where
  | looping : IterResult
  | next : Session → IterResult
  | exitFatal : Nat → String → IterResult
  | crash : String → IterResult
deriving DecidableEq

/-- Continuation of run after the keepalive call: if the keepalive loop
returned, the while-True body ends and the loop continues. -/
def afterKA : Option Session → IterResult
  | none => .looping
  | some s => .next s

/-- One iteration of the while-True body of Authenticator.run, source
lines 397-422.  Line 409 subscripts the result of re.search without a
None check, and the GET at line 411 is outside any try block; both crash
the process when they fail. -/
def iter (s : Session) (e : IterEnv) : IterResult :=
  match (stateCheck s e.probe).1 with
  | none => .looping
  | some (true, _) => .next s
  | some (false, r) =>
    match searchRedirect r.text with
    | none => .crash "TypeError subscripting None at the redirect extraction"
    | some u =>
      match e.get u with
      | .exc => .crash "unhandled RequestException at the captive-portal fetch"
      | .ok pr =>
        if pr.status ≠ 200 then .next s
        else
          match login s pr e.post e.get with
          | .fatal c m => .exitFatal c m
          | .crash m => .crash m
          | .failure _ s₁ => .next s₁
          | .success fr s₁ => afterKA (keepalive s₁ fr.url e.ka)

/-- Result of running Authenticator.run for a bounded number of
iterations. -/
inductive RunResult where
  | running : Session → RunResult
  | looping : RunResult
  | exitFatal : Nat → String → RunResult
  | crash : String → RunResult
deriving DecidableEq

/-- Authenticator.run driven for fuel iterations, iteration n drawing its
network environment from env n. -/
def runFrom (env : Nat → IterEnv) : Nat → Nat → Session → RunResult
  | 0, _, s => .running s
  | fuel + 1, n, s =>
    match iter s (env n) with
    | .looping => .looping
    | .next s₁ => runFrom env fuel (n + 1) s₁
    | .exitFatal c m => .exitFatal c m
    | .crash m => .crash m

/-! Concrete example data: a synthetic gateway session used by the
counterexamples and witnesses below. -/

/-- Canary response while unauthenticated: intercepted, final URL not the
secure canary, body carrying the script redirect to the portal. -/
def exProbeResp : Response :=
  ⟨200, "http://gw/".data, "window.location=\"https://gw/login\"".data⟩

/-- Captive-portal page: base URL scrapes to https://gw/ and the form
holds magic token abc123. -/
def exPortalResp : Response :=
  ⟨200, "https://gw/fgtauth?x".data, "<input name=\"magic\" value=\"abc123\">".data⟩

/-- Response to the credential POST: script redirect to the keepalive
session URL. -/
def exPostResp : Response :=
  ⟨200, "https://gw/".data, "window.location=\"https://gw/keepalive?id=1\"".data⟩

/-- Final response after following the post-login redirect. -/
def exFinalResp : Response := ⟨200, "https://gw/keepalive?id=1".data, []⟩

/-- One-shot GET oracle of the synthetic gateway. -/
def exGet : List Char → ReqOutcome := fun u =>
  if u = "https://gw/login".data then .ok exPortalResp
  else if u = "https://gw/keepalive?id=1".data then .ok exFinalResp
  else .exc

/-- Credential POST oracle of the synthetic gateway: accepts anything. -/
def exPost : List Char → List Char → ReqOutcome := fun _ _ => .ok exPostResp

/-- Iteration environment: successful probe-login-keepalive entry, then
the first keepalive GET raises. -/
def exEnv : IterEnv := ⟨[.ok exProbeResp], exGet, exPost, [.exc]⟩

/-- Session state after that iteration: session lost, logout_url stale. -/
def exBadSession : Session := ⟨false, "https://gw/logout?id=1".data⟩

/-! Helper lemmas. -/

/-- Any pair the prober retry loop returns has status 200, and its Boolean
component is the comparison of the final URL with the secure canary. -/
lemma stateCheckAux_some : ∀ {outs : List ReqOutcome} {b : Bool} {r : Response},
    stateCheckAux outs = some (b, r) → r.status = 200 ∧ b = (r.url == oneOneOneOneHttps)
  | [], _, _, h => by simp [stateCheckAux] at h
  | .exc :: rest, b, r, h =>
    @stateCheckAux_some rest b r (by simpa [stateCheckAux] using h)
  | .ok x :: rest, b, r, h => by
    by_cases hx : x.status = 200
    · simp only [stateCheckAux, if_pos hx, Option.some.injEq, Prod.mk.injEq] at h
      obtain ⟨hb, hr⟩ := h
      subst hr; exact ⟨hx, hb.symm⟩
    · exact @stateCheckAux_some rest b r (by simpa [stateCheckAux, hx] using h)

/-! Claim theorems. -/

/-- C9: the prober never mutates the session fields, and its
classification is a function of the network outcomes alone, independent
of the session it starts from. -/
theorem probe_frame (s₁ s₂ : Session) (outs : List ReqOutcome) :
    (stateCheck s₁ outs).2 = s₁ ∧ (stateCheck s₁ outs).1 = (stateCheck s₂ outs).1 :=
  ⟨rfl, rfl⟩

/-- An outcome on which the prober retry loop keeps going: a raised
exception or a response with a status other than 200. -/
def retriedOutcome : ReqOutcome → Bool
  | .exc => true
  | .ok x => !(x.status == 200)

/-- C10: every response the prober returns has status exactly 200, and
when every supplied outcome is an exception or a non-200 response the
prober keeps retrying and never returns. -/
theorem probe_only_200 :
    (∀ outs b r, stateCheckAux outs = some (b, r) → r.status = 200) ∧
    (∀ outs : List ReqOutcome,
      (∀ o ∈ outs, retriedOutcome o = true) → stateCheckAux outs = none) := by
  constructor
  · intro outs b r h
    exact (stateCheckAux_some h).1
  · intro outs h
    induction outs with
    | nil => rfl
    | cons o rest ih =>
      have hrest : ∀ o ∈ rest, retriedOutcome o = true := by
        intro o ho
        exact h o (List.mem_cons_of_mem _ ho)
      cases o with
      | exc => simpa [stateCheckAux] using ih hrest
      | ok x =>
        have hx : ¬ x.status = 200 := by
          have := h _ (List.mem_cons_self _ _)
          simpa [retriedOutcome] using this
        simpa [stateCheckAux, hx] using ih hrest

/-- C10 witness: a 500 then a healthy 200: the returned response is the
200 one; and a list of only failures yields no return. -/
theorem probe_only_200_witness :
    (⟨200, "http://x/".data, []⟩ : Response).status = 200 ∧
    stateCheckAux [.exc, .ok ⟨500, "http://x/".data, []⟩] = none := by
  refine ⟨probe_only_200.1 [.ok ⟨500, "http://y/".data, []⟩, .ok ⟨200, "http://x/".data, []⟩]
      false ⟨200, "http://x/".data, []⟩ (by decide), ?_⟩
  exact probe_only_200.2 [.exc, .ok ⟨500, "http://x/".data, []⟩] (by decide)

/-- C3: whenever the prober returns, it classifies authenticated as true
exactly when the final URL of the returned response is the secure canary
address; in the other case the very same last response is handed back. -/
theorem probe_classification (s : Session) (outs : List ReqOutcome) (b : Bool)
    (r : Response) (h : (stateCheck s outs).1 = some (b, r)) :
    b = true ↔ r.url = oneOneOneOneHttps := by
  have hb := (@stateCheckAux_some outs b r h).2
  subst hb
  simp [beq_iff_eq]

/-- C3 witness: an uninterception response with the secure canary URL is
classified as authenticated. -/
theorem probe_classification_witness :
    (stateCheck initSession [.ok ⟨200, oneOneOneOneHttps, []⟩]).1 =
      some (true, ⟨200, oneOneOneOneHttps, []⟩) ∧
    (true = true ↔ (⟨200, oneOneOneOneHttps, []⟩ : Response).url = oneOneOneOneHttps) :=
  ⟨by decide, probe_classification initSession [.ok ⟨200, oneOneOneOneHttps, []⟩] true
    ⟨200, oneOneOneOneHttps, []⟩ (by decide)⟩

/-- C2 (bug exhibit): with the session authenticated, a logout GET that
raises makes the interrupt handler itself raise UnboundLocalError instead
of reaching exit(code=0); a non-200 logout response and the
unauthenticated case do exit with code 0. -/
theorem interrupt_handler_bug :
    interruptHandler ⟨true, "https://gw/logout?id=1".data⟩ (fun _ => .exc) =
      .crash "UnboundLocalError reading response after the except block" ∧
    interruptHandler ⟨true, "https://gw/logout?id=1".data⟩
      (fun _ => .ok ⟨500, "https://gw/logout?id=1".data, []⟩) = .exit0 false ∧
    interruptHandler ⟨false, []⟩ (fun _ => .exc) = .exit0 false := by
  decide

/-- Whenever the keepalive loop returns, the resulting state has
logged_in false and the logout_url it started with. -/
lemma keepalive_some {s : Session} {url : List Char} :
    ∀ {outs : List ReqOutcome} {s₁ : Session},
      keepalive s url outs = some s₁ → s₁ = ⟨false, s.logout_url⟩
  | [], _, h => by simp [keepalive] at h
  | .exc :: rest, s₁, h => by
    simp only [keepalive, Option.some.injEq] at h
    exact h.symm
  | .ok r :: rest, s₁, h => by
    by_cases hr : r.status = 200 ∧ r.url = url
    · exact keepalive_some (by simpa [keepalive, hr] using h)
    · simp only [keepalive, if_neg hr, Option.some.injEq] at h
      exact h.symm

/-- Every failure return of the login negotiator leaves the session
exactly as it was. -/
lemma login_failure_state {s : Session} {r0 : Response}
    {post : List Char → List Char → ReqOutcome} {get : List Char → ReqOutcome}
    {r : Option Response} {s₁ : Session}
    (h : login s r0 post get = .failure r s₁) : s₁ = s := by
  unfold login at h
  repeat' split at h
  all_goals simp_all

/-- Every success return of the login negotiator followed some redirect
URL u with a 200 response and set the session to
(true, u with keepalive replaced by logout). -/
lemma login_success_inv {s : Session} {r0 : Response}
    {post : List Char → List Char → ReqOutcome} {get : List Char → ReqOutcome}
    {fr : Response} {s₁ : Session}
    (h : login s r0 post get = .success fr s₁) :
    ∃ u, get u = ReqOutcome.ok fr ∧ fr.status = 200 ∧ s₁ = ⟨true, replKA u⟩ := by
  unfold login at h
  repeat' split at h
  all_goals simp_all
  rename_i x1 u x frx hps hsr hget h200
  exact ⟨u, hget, h.2.symm⟩

/-- The textual replacement never empties a non-empty string. -/
lemma replKA_ne_nil {u : List Char} (hu : u ≠ []) : replKA u ≠ [] := by
  cases u with
  | nil => exact absurd rfl hu
  | cons c cs =>
    show replKAGo (c :: cs).length (c :: cs) ≠ []
    simp only [List.length_cons, replKAGo]
    split
    · intro hx
      rcases List.append_eq_nil.mp hx with ⟨h1, _⟩
      exact absurd h1 (by decide)
    · simp

/-- C7: one keepalive iteration continues exactly on a 200 response with
unchanged URL; an exception or any other response makes the loop return
at once with logged_in set to false and logout_url untouched; and every
state the loop can return has logged_in false — the loop never calls
exit. -/
theorem keepalive_loop (s : Session) (url : List Char) :
    (∀ r outs, r.status = 200 → r.url = url →
      keepalive s url (.ok r :: outs) = keepalive s url outs) ∧
    (∀ outs, keepalive s url (.exc :: outs) = some ⟨false, s.logout_url⟩) ∧
    (∀ r outs, ¬ (r.status = 200 ∧ r.url = url) →
      keepalive s url (.ok r :: outs) = some ⟨false, s.logout_url⟩) ∧
    (∀ outs s₁, keepalive s url outs = some s₁ →
      s₁.logged_in = false ∧ s₁.logout_url = s.logout_url) := by
  refine ⟨?_, fun _ => rfl, ?_, ?_⟩
  · intro r outs h200 hurl
    simp [keepalive, h200, hurl]
  · intro r outs hbad
    simp [keepalive, hbad]
  · intro outs s₁ h
    rw [keepalive_some h]
    exact ⟨rfl, rfl⟩

/-- C7 witness: a healthy poll followed by a transport error: the loop
survives the first outcome and returns on the second with logged_in false
and the stale logout_url. -/
theorem keepalive_loop_witness :
    keepalive ⟨true, "https://u/logout".data⟩ "https://u/keepalive".data
      [.ok ⟨200, "https://u/keepalive".data, []⟩, .exc] =
      some ⟨false, "https://u/logout".data⟩ := by
  have h := keepalive_loop ⟨true, "https://u/logout".data⟩ "https://u/keepalive".data
  rw [h.1 ⟨200, "https://u/keepalive".data, []⟩ [.exc] rfl rfl]
  exact h.2.1 []

/-- C1 (counterexample): starting from the initial state, one run
iteration that probes unauthenticated, logs in successfully and then
loses the session in the keepalive loop ends with logged_in false while
logout_url still holds the stale logout address, so the claimed
equivalence of non-empty logout_url and authenticated is false there. -/
theorem invariant_cex :
    iter initSession exEnv = .next exBadSession ∧ ¬ sessionInv exBadSession :=
  ⟨by decide, by decide⟩

/-- C1 (amended): the equivalence holds at initialization; the prober
preserves the session fields; login failures leave the session untouched
and login successes make it authenticated with a non-empty logout_url
(granted that a GET of the empty URL never yields status 200); but a
keepalive return only resets logged_in and keeps the old logout_url, so
after it only the forward implication survives. -/
theorem invariant_amended (s : Session) (pouts : List ReqOutcome) (r0 : Response)
    (post : List Char → List Char → ReqOutcome) (get : List Char → ReqOutcome)
    (kurl : List Char) (kouts : List ReqOutcome)
    (hget : ∀ r, get [] = ReqOutcome.ok r → ¬ r.status = 200) :
    sessionInv initSession ∧
    (stateCheck s pouts).2 = s ∧
    (∀ r s₁, login s r0 post get = .failure r s₁ → s₁ = s) ∧
    (∀ fr s₁, login s r0 post get = .success fr s₁ →
      s₁.logged_in = true ∧ s₁.logout_url ≠ []) ∧
    (∀ s₁, keepalive s kurl kouts = some s₁ →
      s₁.logged_in = false ∧ s₁.logout_url = s.logout_url) := by
  refine ⟨by decide, rfl, ?_, ?_, ?_⟩
  · intro r s₁ h
    exact login_failure_state h
  · intro fr s₁ h
    obtain ⟨u, hgu, h200, hs⟩ := login_success_inv h
    subst hs
    refine ⟨rfl, replKA_ne_nil ?_⟩
    intro hu
    subst hu
    exact hget fr hgu h200
  · intro s₁ h
    rw [keepalive_some h]
    exact ⟨rfl, rfl⟩

/-- C1 witness: the amended statement applied to the synthetic gateway:
its GET oracle answers the empty URL with an exception, the initial state
satisfies the equivalence, and the successful login against the portal
page yields an authenticated state with non-empty logout_url. -/
theorem invariant_amended_witness :
    (∀ r, exGet [] = ReqOutcome.ok r → ¬ r.status = 200) ∧
    sessionInv initSession ∧
    (∀ fr s₁, login initSession exPortalResp exPost exGet = .success fr s₁ →
      s₁.logged_in = true ∧ s₁.logout_url ≠ []) := by
  have hge : exGet [] = ReqOutcome.exc := by decide
  have hget : ∀ r, exGet [] = ReqOutcome.ok r → ¬ r.status = 200 := by
    intro r hr
    rw [hge] at hr
    simp at hr
  have h := invariant_amended initSession [] exPortalResp exPost exGet [] [] hget
  exact ⟨hget, h.1, h.2.2.2.1⟩

/-- A pattern literally laid out at the head of a list matches there. -/
lemma litPre_append (p r : List Char) : litPre p (p ++ r) = true := by
  induction p with
  | nil => rfl
  | cons a as ih => simp [litPre, ih]

/-- The greedy class run over a laid-out token stops exactly at the
closing quote. -/
lemma takeWhile_all_quote (X post : List Char) (hX : X.all alnum = true) :
    (X ++ '"' :: post).takeWhile alnum = X := by
  induction X with
  | nil => exact List.takeWhile_cons_of_neg (by decide)
  | cons x xs ih =>
    simp only [List.all_cons, Bool.and_eq_true] at hX
    simp [List.takeWhile_cons_of_pos hX.1, ih hX.2]

/-- An anchored magic match at a laid-out field returns its token. -/
lemma matchMagicAt_hit (X post : List Char) (hne : X ≠ [])
    (hX : X.all alnum = true) :
    matchMagicAt (magicLit ++ (X ++ '"' :: post)) = some X := by
  simp only [matchMagicAt, litPre_append, if_true, List.drop_left,
    takeWhile_all_quote X post hX]
  cases X with
  | nil => exact absurd rfl hne
  | cons c cs => simp

/-- An anchored match failing its leading literal fails. -/
lemma matchMagicAt_none {s : List Char} (h : litPre magicLit s = false) :
    matchMagicAt s = none := by
  simp [matchMagicAt, h]

/-- A position scan whose anchored matcher succeeds right here succeeds. -/
lemma scanPos_hit {f : List Char → Option (List Char)} {l r : List Char}
    (h : f l = some r) : scanPos f l = some r := by
  cases l with
  | nil => simpa [scanPos] using h
  | cons c cs => simp [scanPos, h]

/-- Without the literal part of the magic pattern anywhere in the input,
the magic search fails. -/
lemma searchMagic_none : ∀ {s : List Char},
    containsSub magicLit s = false → searchMagic s = none := by
  intro s
  induction s with
  | nil =>
    intro h
    simp only [containsSub] at h
    simpa [searchMagic, scanPos] using matchMagicAt_none h
  | cons c cs ih =>
    intro h
    simp only [containsSub, Bool.or_eq_false_iff] at h
    obtain ⟨h1, h2⟩ := h
    simpa [searchMagic, scanPos, matchMagicAt_none h1] using ih h2

/-- The magic search finds the token of a laid-out field when every
earlier position fails to match. -/
lemma searchMagic_pos : ∀ (pre rest X : List Char),
    (∀ i, i < pre.length → matchMagicAt ((pre ++ rest).drop i) = none) →
    matchMagicAt rest = some X →
    searchMagic (pre ++ rest) = some X := by
  intro pre
  induction pre with
  | nil =>
    intro rest X h hm
    simpa [searchMagic] using scanPos_hit hm
  | cons a pre ih =>
    intro rest X h hm
    have h0 := h 0 (by simp)
    simp only [List.cons_append, List.drop_zero] at h0
    show scanPos matchMagicAt ((a :: pre) ++ rest) = some X
    simp only [List.cons_append, scanPos, List.append_eq, h0]
    exact ih rest X
      (fun i hi => by
        have hs := h (i + 1) (by simpa using Nat.succ_lt_succ hi)
        simpa [List.cons_append] using hs)
      hm

/-- C4 (counterexample): the page fragment laying out a magic field with
value a b (a token the claim quantifies over, but which is not purely
alphanumeric) makes the extraction fail entirely instead of returning
that value, so the fatal exit-1 path is taken. -/
theorem magic_extraction_cex :
    searchMagic (magicLit ++ ("a b".data ++ '"' :: [])) ≠ some "a b".data ∧
    searchMagic (magicLit ++ ("a b".data ++ '"' :: [])) = none :=
  ⟨by decide, by decide⟩

/-- C4 (amended): an input without the literal field header never yields
a token (the fatal path is taken); and for a field whose value is a
non-empty string of ASCII letters and digits, laid out at the first
position where an anchored match succeeds, the extracted token is that
value exactly. -/
theorem magic_extraction_amended (pre X post : List Char) (hne : X ≠ [])
    (hX : X.all alnum = true)
    (hpre : ∀ i, i < pre.length →
      matchMagicAt ((pre ++ (magicLit ++ (X ++ '"' :: post))).drop i) = none) :
    (∀ s, containsSub magicLit s = false → searchMagic s = none) ∧
    searchMagic (pre ++ (magicLit ++ (X ++ '"' :: post))) = some X := by
  constructor
  · intro s hs
    exact searchMagic_none hs
  · exact searchMagic_pos _ _ _ hpre (matchMagicAt_hit X post hne hX)

/-- C4 witness: the token abc123 inside a small page is extracted exactly,
and a page fragment without the field header yields nothing. -/
theorem magic_extraction_amended_witness :
    ("abc123".data ≠ [] ∧ "abc123".data.all alnum = true) ∧
    searchMagic ("<p>".data ++ (magicLit ++ ("abc123".data ++ '"' :: "</p>".data))) =
      some "abc123".data ∧
    searchMagic "<p>no field here</p>".data = none := by
  have h := magic_extraction_amended "<p>".data "abc123".data "</p>".data
    (by decide) (by decide) (by decide)
  exact ⟨⟨by decide, by decide⟩, h.2, h.1 "<p>no field here</p>".data (by decide)⟩

/-- C5: with the scrape succeeding, a raised exception on the credential
POST makes login return (False, None) and a non-200 POST response makes
it return (False, response), both leaving the session untouched; and any
completed run-loop body simply continues the driver loop, whose next
iteration begins again at the prober. -/
theorem login_retryable (s : Session) (r0 : Response)
    (post : List Char → List Char → ReqOutcome) (get : List Char → ReqOutcome)
    (url magic : List Char)
    (hb : searchBase r0.url = some url) (hm : searchMagic r0.text = some magic) :
    (post url magic = .exc → login s r0 post get = .failure none s) ∧
    (∀ pr, post url magic = .ok pr → ¬ pr.status = 200 →
      login s r0 post get = .failure (some pr) s) ∧
    (∀ env fuel n s₁ s₂, iter s₁ (env n) = .next s₂ →
      runFrom env (fuel + 1) n s₁ = runFrom env fuel (n + 1) s₂) := by
  refine ⟨?_, ?_, ?_⟩
  · intro hp
    simp [login, hb, hm, hp]
  · intro pr hp hps
    simp [login, hb, hm, hp, hps]
  · intro env fuel n s₁ s₂ h
    simp [runFrom, h]

/-- C5 witness: against the portal page of the synthetic gateway, a POST
that raises yields (False, None) with the session unchanged. -/
theorem login_retryable_witness :
    searchBase exPortalResp.url = some "https://gw/".data ∧
    searchMagic exPortalResp.text = some "abc123".data ∧
    login initSession exPortalResp (fun _ _ => .exc) exGet = .failure none initSession := by
  have h := login_retryable initSession exPortalResp (fun _ _ => .exc) exGet
    "https://gw/".data "abc123".data (by decide) (by decide)
  exact ⟨by decide, by decide, h.1 rfl⟩

/-- C6: a fully successful negotiation returns the final response fr and
the session (true, u.replace keepalive logout) where u is the redirect
URL that was followed; and inside the run loop that success is followed
by the keepalive loop polling exactly the final response URL fr.url. -/
theorem login_success_derives (s : Session) (r0 : Response)
    (post : List Char → List Char → ReqOutcome) (get : List Char → ReqOutcome)
    (url magic : List Char) (pr : Response) (u : List Char) (fr : Response)
    (hb : searchBase r0.url = some url) (hm : searchMagic r0.text = some magic)
    (hp : post url magic = .ok pr) (hps : pr.status = 200)
    (hr : searchRedirect pr.text = some u)
    (hg : get u = .ok fr) (hgs : fr.status = 200) :
    login s r0 post get = .success fr ⟨true, replKA u⟩ ∧
    (∀ (e : IterEnv) (s₀ : Session) (rp : Response) (u₀ : List Char)
        (pr₀ fr₀ : Response) (s₁ : Session),
      (stateCheck s₀ e.probe).1 = some (false, rp) →
      searchRedirect rp.text = some u₀ →
      e.get u₀ = .ok pr₀ → pr₀.status = 200 →
      login s₀ pr₀ e.post e.get = .success fr₀ s₁ →
      iter s₀ e = afterKA (keepalive s₁ fr₀.url e.ka)) := by
  constructor
  · simp [login, hb, hm, hp, hps, hr, hg, hgs]
  · intro e s₀ rp u₀ pr₀ fr₀ s₁ h1 h2 h3 h4 h5
    simp [iter, h1, h2, h3, h4, h5]

/-- C6 witness: the synthetic round trip: the session URL
https://gw/keepalive?id=1 yields logout URL https://gw/logout?id=1, and
the iteration proceeds to the keepalive loop on the final response URL. -/
theorem login_success_derives_witness :
    login initSession exPortalResp exPost exGet =
      .success exFinalResp ⟨true, "https://gw/logout?id=1".data⟩ ∧
    iter initSession exEnv =
      afterKA (keepalive ⟨true, "https://gw/logout?id=1".data⟩ exFinalResp.url exEnv.ka) := by
  have h := login_success_derives initSession exPortalResp exPost exGet
    "https://gw/".data "abc123".data exPostResp "https://gw/keepalive?id=1".data exFinalResp
    (by decide) (by decide) (by decide) (by decide) (by decide) (by decide) (by decide)
  have hrepl : replKA "https://gw/keepalive?id=1".data = "https://gw/logout?id=1".data := by
    decide
  constructor
  · rw [h.1, hrepl]
  · have h2 := h.2 exEnv initSession exProbeResp "https://gw/login".data exPortalResp
      exFinalResp ⟨true, replKA "https://gw/keepalive?id=1".data⟩
      (by decide) (by decide) (by decide) (by decide) h.1
    rw [h2, hrepl]

/-- C8: a response URL without a scrapeable base URL, portal HTML without
a magic token, and a 200 POST response without a script redirect each
make login call exit with code 1 (the last logging the invalid
username/password message); a login exit reaches run as an exit, and the
driver stops at an exit without any further iteration. -/
theorem fatal_scrape_exits (s : Session) (r0 : Response)
    (post : List Char → List Char → ReqOutcome) (get : List Char → ReqOutcome) :
    (searchBase r0.url = none →
      login s r0 post get = .fatal 1 "Cound not find base URL via regex match. Exiting") ∧
    (∀ url, searchBase r0.url = some url → searchMagic r0.text = none →
      login s r0 post get = .fatal 1 "Could not find magic value via regex match. Exiting") ∧
    (∀ url magic pr, searchBase r0.url = some url → searchMagic r0.text = some magic →
      post url magic = .ok pr → pr.status = 200 → searchRedirect pr.text = none →
      login s r0 post get = .fatal 1 "Invalid username/password combination. Exiting") ∧
    (∀ (e : IterEnv) (s₀ : Session) (rp : Response) (u₀ : List Char) (pr₀ : Response)
        (c : Nat) (m : String),
      (stateCheck s₀ e.probe).1 = some (false, rp) →
      searchRedirect rp.text = some u₀ →
      e.get u₀ = .ok pr₀ → pr₀.status = 200 →
      login s₀ pr₀ e.post e.get = .fatal c m →
      iter s₀ e = .exitFatal c m) ∧
    (∀ env fuel n s₁ c m, iter s₁ (env n) = .exitFatal c m →
      runFrom env (fuel + 1) n s₁ = .exitFatal c m) := by
  refine ⟨?_, ?_, ?_, ?_, ?_⟩
  · intro hb
    simp [login, hb]
  · intro url hb hm
    simp [login, hb, hm]
  · intro url magic pr hb hm hp hps hr
    simp [login, hb, hm, hp, hps, hr]
  · intro e s₀ rp u₀ pr₀ c m h1 h2 h3 h4 h5
    simp [iter, h1, h2, h3, h4, h5]
  · intro env fuel n s₁ c m h
    simp [runFrom, h]

/-- C8 witness: a portal page with a base URL but no magic token makes
login exit with code 1 and the magic-value error message. -/
theorem fatal_scrape_exits_witness :
    searchBase "https://gw/x".data = some "https://gw/".data ∧
    searchMagic "no magic here".data = none ∧
    login initSession ⟨200, "https://gw/x".data, "no magic here".data⟩ exPost exGet =
      .fatal 1 "Could not find magic value via regex match. Exiting" := by
  have h := (fatal_scrape_exits initSession
    ⟨200, "https://gw/x".data, "no magic here".data⟩ exPost exGet).2.1
    "https://gw/".data (by decide) (by decide)
  exact ⟨by decide, by decide, h⟩

end FirewallAuth
